import Mathlib

/-!
Verification of the training-run orchestrator in sockeye/train.py.

The Python source is shallowly embedded: pure helpers (the argument-dictionary
difference, option defaulting, optimizer-parameter assembly) become Lean
functions; the effectful body of main becomes a pure function from an
environment (output-folder state, persisted files) to the list of events the
process performs (reads, writes, error reports, process exit, configuration
construction, training handoff).
-/

set_option autoImplicit false

/-! ## File-name and key constants

Modelled from the spec: the constants module of the repository is not part of
the provided source, so the on-disk names come from the spec (section 6,
persisted on-disk layout) and the dictionary keys from their uses in train.py.
-/

def ARGS_STATE_NAME : String := "args.json"

def LOG_NAME : String := "log"

def VOCAB_SRC_NAME : String := "vocab.src"

def VOCAB_TRG_NAME : String := "vocab.trg"

def JSON_SUFFIX : String := ".json"

def TRAINING_STATE_DIRNAME : String := "training_state"

def SCHEDULER_STATE_NAME : String := "scheduler.state"

def TRAINING_STATE_PARAMS_NAME : String := "params"

def BLEU : String := "bleu"

def DEVICE_IDS_KEY : String := "device_ids"

def WD_KEY : String := "wd"

def LEARNING_RATE_KEY : String := "learning_rate"

def LR_SCHEDULER_KEY : String := "lr_scheduler"

def CLIP_GRADIENT_KEY : String := "clip_gradient"

def MOMENTUM_KEY : String := "momentum"

def RESCALE_GRAD_KEY : String := "rescale_grad"

def MSG_FUSED : String := "GPU required for FusedRNN cells"

def MSG_RESIDUAL : String := "Residual connections require at least 3 RNN layers"

def MSG_METRIC : String := "Must optimize either BLEU or one of tracked metrics"

/-! ## Argument dictionaries

vars(args) and the persisted args.json are JSON-like dictionaries mapping
field names to values.  Values are modelled by a small inductive covering the
shapes argparse produces (booleans, numbers, strings, None, flat lists).
-/

inductive Val where
  | vbool : Bool → Val
  | vint : Int → Val
  | vrat : Rat → Val
  | vstr : String → Val
  | vnone : Val
  | vIntList : List Int → Val
  | vStrList : List String → Val
deriving DecidableEq, Repr

/-- An argument dictionary: an association list from field names to values. -/
abbrev Args := List (String × Val)

/-- Dictionary lookup: the value of key k, none when k is absent. -/
def dictGet {β : Type} (k : String) : List (String × β) → Option β
  | [] => none
  | (k1, v1) :: rest => if k1 = k then some v1 else dictGet k rest

/-- The key set of a dictionary, as a list (Python: dict keys). -/
def dictKeys (d : Args) : List String := d.map Prod.fst

/-- Python len(x) of a dictionary value: defined for lists and strings,
undefined (TypeError) otherwise. -/
def valLen : Val → Option Nat
  | Val.vIntList l => some l.length
  | Val.vStrList l => some l.length
  | Val.vstr s => some s.length
  | _ => none

/-- Python len(d[k]): undefined when k is absent (KeyError) or the value has
no length (TypeError). -/
def pyLen (d : Args) (k : String) : Option Nat := (dictGet k d).bind valLen

/-- Embedding of _dict_difference (train.py lines 64 to 69): the set of keys k
of dict1 such that k is not in dict2 or dict2 maps k to a different value. -/
def _dict_difference (dict1 dict2 : Args) : Finset String :=
  ((dict1.filter fun kv => ¬ (dictGet kv.1 dict2 = some kv.2)).map Prod.fst).toFinset

/-- Spec-side definition, following the words of the spec: the symmetric
field-name difference, the set of field names present in either dictionary on
which the two dictionaries disagree (missing from one side or mapped to
different values). -/
def spec_field_difference (a b : Args) : Finset String :=
  ((dictKeys a).toFinset ∪ (dictKeys b).toFinset).filter
    fun k => ¬ (dictGet k a = dictGet k b)

/-! ## Resume decision engine (train.py lines 94 to 125) -/

inductive ResumeDecision where
  | FreshStart : ResumeDecision
  | Resume : ResumeDecision
  | Refuse : ResumeDecision
  | AbortIncompatible : Finset String → ResumeDecision
deriving DecidableEq

/-- Opaque payload of the pickled learning-rate-scheduler state file. -/
structure SchedState where
  payload : Nat
deriving DecidableEq, Repr

/-- The state of the world the orchestrator observes: whether the output
folder and the training-state marker directory exist, the content of the
persisted args.json and scheduler-state files (none when absent or
unreadable), and the number of visible GPUs. -/
structure Env where
  outputFolderExists : Bool
  trainingStateDirExists : Bool
  argsJson : Option Args
  schedulerState : Option SchedState
  numGpus : Nat

/-- The argument-difference computation of train.py lines 108 to 113: the
symmetric difference via _dict_difference in both directions, minus the
resumption-neutral fields (C.ARGS_MAY_DIFFER, passed in as mayDiffer), then
the device-id special case: when device_ids remains and the two device-id
lists have equal length it is discarded.  Returns none where Python would
raise (KeyError or TypeError on the len calls). -/
def remaining_arg_diffs (mayDiffer : Finset String) (cur old : Args) :
    Option (Finset String) :=
  let diffs := (_dict_difference cur old ∪ _dict_difference old cur) \ mayDiffer
  if DEVICE_IDS_KEY ∈ diffs then
    match pyLen old DEVICE_IDS_KEY, pyLen cur DEVICE_IDS_KEY with
    | some m, some n => some (if m = n then diffs.erase DEVICE_IDS_KEY else diffs)
    | _, _ => none
  else some diffs

/-- Embedding of the resume decision (train.py lines 100 to 125).  cur is
vars(args); overwrite is args.overwrite_output.  Returns none where the
Python code would raise before reaching a decision (args.json unreadable, or
the device-id length computation failing). -/
def resumeDecision (mayDiffer : Finset String) (env : Env) (overwrite : Bool)
    (cur : Args) : Option ResumeDecision :=
  if env.outputFolderExists then
    if overwrite then some ResumeDecision.FreshStart
    else if env.trainingStateDirExists then
      match env.argsJson with
      | none => none
      | some old =>
        match remaining_arg_diffs mayDiffer cur old with
        | none => none
        | some diffs =>
          some (if diffs = ∅ then ResumeDecision.Resume
                else ResumeDecision.AbortIncompatible diffs)
    else some ResumeDecision.Refuse
  else some ResumeDecision.FreshStart

/-- Spec-side remaining difference: the symmetric field-name difference minus
the resumption-neutral fields, with the device-id special case applied. -/
def spec_remaining (mayDiffer : Finset String) (cur old : Args) : Finset String :=
  let s := spec_field_difference cur old \ mayDiffer
  if DEVICE_IDS_KEY ∈ s ∧ pyLen old DEVICE_IDS_KEY = pyLen cur DEVICE_IDS_KEY
  then s.erase DEVICE_IDS_KEY else s

/-! ## Typed arguments

The fields of the parsed argparse namespace that the verified fragments of
main read, with Python floats embedded as rationals and optional arguments as
Option.
-/

structure TrainArgs where
  use_fused_rnn : Bool
  use_cpu : Bool
  rnn_residual_connections : Bool
  rnn_num_layers : Int
  optimized_metric : String
  metrics : List String
  overwrite_output : Bool
  params : Option String
  num_words : Nat
  num_words_source : Option Nat
  num_words_target : Option Nat
  max_seq_len : Nat
  max_seq_len_source : Option Nat
  max_seq_len_target : Option Nat
  num_embed : Nat
  num_embed_source : Option Nat
  num_embed_target : Option Nat
  batch_size : Nat
  normalize_loss : Bool
  weight_decay : Rat
  initial_learning_rate : Rat
  clip_gradient : Rat
  momentum : Option Rat
  learning_rate_scheduler_type : String
  checkpoint_frequency : Nat
  learning_rate_half_life : Rat
  learning_rate_reduce_factor : Rat
  learning_rate_reduce_num_not_improved : Nat
deriving DecidableEq, Repr

/-- Embedding of none_if_negative (train.py lines 49 to 50). -/
def none_if_negative (val : Rat) : Option Rat :=
  if val < 0 then none else some val

/-- Modelled from the spec: check_condition lives in sockeye.utils, which is
not among the provided sources; per the spec (section 4.3, cross-field
validation raises a configuration error) and its call sites it fails fatally
with a message when the condition is false.  Embedded as Except. -/
def check_condition (condition : Bool) (errorMessage : String) :
    Except String Unit :=
  if condition then Except.ok () else Except.error errorMessage

/-- Embedding of the cross-field validation at train.py lines 85 to 92:
FusedRNN requires GPU, residual connections require more than 2 RNN layers,
and the optimized metric must be BLEU or a tracked metric.  The three checks
run in order and the first failure aborts the run. -/
def validateArgs (args : TrainArgs) : Except String Unit :=
  Except.bind
    (if args.use_fused_rnn then check_condition (!args.use_cpu) MSG_FUSED
     else Except.ok ())
    (fun _ => Except.bind
      (if args.rnn_residual_connections then
         check_condition (decide (2 < args.rnn_num_layers)) MSG_RESIDUAL
       else Except.ok ())
      (fun _ => check_condition
        (decide (args.optimized_metric = BLEU ∨
          args.optimized_metric ∈ args.metrics))
        MSG_METRIC))

/-! ## Sub-dimension defaulting (train.py lines 159, 163, 179, 180, 208, 209) -/

/-- train.py line 159: args.num_words if args.num_words_source is None else
args.num_words_source. -/
def num_words_source_resolved (args : TrainArgs) : Nat :=
  match args.num_words_source with
  | none => args.num_words
  | some v => v

/-- train.py line 163: args.num_words if args.num_words_target is None else
args.num_words_target. -/
def num_words_target_resolved (args : TrainArgs) : Nat :=
  match args.num_words_target with
  | none => args.num_words
  | some v => v

/-- train.py line 179: args.max_seq_len if args.max_seq_len_source is None
else args.max_seq_len_source. -/
def max_seq_len_source_resolved (args : TrainArgs) : Nat :=
  match args.max_seq_len_source with
  | none => args.max_seq_len
  | some v => v

/-- train.py line 180: args.max_seq_len if args.max_seq_len_target is None
else args.max_seq_len_target. -/
def max_seq_len_target_resolved (args : TrainArgs) : Nat :=
  match args.max_seq_len_target with
  | none => args.max_seq_len
  | some v => v

/-- train.py line 208: args.num_embed if args.num_embed_source is None else
args.num_embed_source. -/
def num_embed_source_resolved (args : TrainArgs) : Nat :=
  match args.num_embed_source with
  | none => args.num_embed
  | some v => v

/-- train.py line 209: args.num_embed if args.num_embed_target is None else
args.num_embed_target. -/
def num_embed_target_resolved (args : TrainArgs) : Nat :=
  match args.num_embed_target with
  | none => args.num_embed
  | some v => v

/-! ## Learning-rate scheduler selection (train.py lines 195 to 205) -/

/-- A learning-rate scheduler value: either the result of the external call
lr_scheduler.get_lr_scheduler, represented opaquely by the arguments of the
call (the lr_scheduler module is outside the provided sources), or an object
restored by pickle.load from the scheduler-state file. -/
inductive LrScheduler where
  | fromConfig (schedulerType : String) (checkpointFrequency : Nat)
      (halfLife : Option Rat) (reduceFactor : Rat) (reduceNumNotImproved : Nat)
  | restored (s : SchedState)
deriving DecidableEq

/-- Embedding of the scheduler selection (train.py lines 195 to 205): when
not resuming, the scheduler is built from configuration (with the half-life
passed through none_if_negative, line 195); when resuming it is unpickled
from the scheduler-state file under training_state, and none is returned when
that file is missing or unreadable (Python raises before the scheduler
exists). -/
def scheduler_instance (env : Env) (args : TrainArgs) (resume_training : Bool) :
    Option LrScheduler :=
  if !resume_training then
    some (LrScheduler.fromConfig args.learning_rate_scheduler_type
      args.checkpoint_frequency (none_if_negative args.learning_rate_half_life)
      args.learning_rate_reduce_factor args.learning_rate_reduce_num_not_improved)
  else (env.schedulerState).map LrScheduler.restored

/-! ## Optimizer parameters (train.py lines 291 to 307) -/

/-- A value in the optimizer-parameter dictionary: a number or the scheduler
object. -/
inductive OptVal where
  | num : Rat → OptVal
  | sched : LrScheduler → OptVal
deriving DecidableEq

/-- Embedding of the optimizer-parameter assembly (train.py lines 291 to
307): weight decay and learning rate always; the scheduler when present;
clip_gradient only when none_if_negative keeps it (the requested value is
non-negative); momentum only when given; rescale_grad is 1.0 under loss
normalization and 1/batch_size otherwise. -/
def optimizer_params (args : TrainArgs)
    (lr_scheduler_instance : Option LrScheduler) : List (String × OptVal) :=
  let p0 : List (String × OptVal) :=
    [(WD_KEY, OptVal.num args.weight_decay),
     (LEARNING_RATE_KEY, OptVal.num args.initial_learning_rate)]
  let p1 := match lr_scheduler_instance with
    | some s => p0 ++ [(LR_SCHEDULER_KEY, OptVal.sched s)]
    | none => p0
  let p2 := match none_if_negative args.clip_gradient with
    | some c => p1 ++ [(CLIP_GRADIENT_KEY, OptVal.num c)]
    | none => p1
  let p3 := match args.momentum with
    | some m => p2 ++ [(MOMENTUM_KEY, OptVal.num m)]
    | none => p2
  p3 ++ [(RESCALE_GRAD_KEY, OptVal.num
    (if args.normalize_loss then 1 else 1 / (args.batch_size : Rat)))]

/-! ## Event trace of main -/

/-- Observable actions of the orchestrator process: filesystem mutations and
reads under the output folder, error reports, process exit, an uncaught
exception (crash), construction of the model RunConfiguration, and the
training handoff. -/
inductive Event where
  | removeTree : Event
  | makeDirs : Event
  | readFile : String → Event
  | writeFile : String → Event
  | errorRefuse : Event
  | errorMismatch : Finset String → Event
  | exitProcess : Nat → Event
  | crash : Event
  | buildRunConfiguration : Event
  | fitCall : Event
deriving DecidableEq

/-- Events of the body of main after the resume decision (train.py lines 127
to 323): set up the file logger, dump vars(args) to args.json, acquire the
device context (fatal when GPUs are requested but none exist), load or build
and persist the vocabularies, load or construct the scheduler (fatal when the
scheduler-state file is missing on resume), build the model configuration,
load prior parameters (the training-state parameters on resume, args.params
when given on fresh start), and call fit. -/
def trainingPipeline (env : Env) (args : TrainArgs) (resume_training : Bool) :
    List Event :=
  [Event.writeFile LOG_NAME, Event.writeFile ARGS_STATE_NAME] ++
  if args.use_cpu = false ∧ env.numGpus = 0 then [Event.crash]
  else
    (if resume_training then
       [Event.readFile VOCAB_SRC_NAME, Event.readFile VOCAB_TRG_NAME]
     else
       [Event.writeFile (VOCAB_SRC_NAME ++ JSON_SUFFIX),
        Event.writeFile (VOCAB_TRG_NAME ++ JSON_SUFFIX)]) ++
    (if resume_training then
       match env.schedulerState with
       | none => [Event.crash]
       | some _ =>
         [Event.readFile SCHEDULER_STATE_NAME, Event.buildRunConfiguration,
          Event.readFile TRAINING_STATE_PARAMS_NAME, Event.fitCall]
     else
       Event.buildRunConfiguration ::
         ((match args.params with
           | some p => [Event.readFile p]
           | none => []) ++ [Event.fitCall]))

/-- Event trace of main (train.py lines 72 to 326).  cur is vars(args) as a
dictionary; args the same namespace viewed through its typed fields.  The
validation checks run first (a failure is an uncaught fatal error); then the
resume decision: Refuse and AbortIncompatible log an error and exit with
status 1 before touching the output folder, FreshStart clears or creates the
folder and runs the pipeline afresh, Resume reads args.json during the
decision and runs the pipeline in resume mode. -/
def mainTrace (mayDiffer : Finset String) (env : Env) (cur : Args)
    (args : TrainArgs) : List Event :=
  if (validateArgs args).isOk = false then [Event.crash]
  else
    match resumeDecision mayDiffer env args.overwrite_output cur with
    | none => [Event.crash]
    | some ResumeDecision.Refuse => [Event.errorRefuse, Event.exitProcess 1]
    | some (ResumeDecision.AbortIncompatible d) =>
        [Event.readFile ARGS_STATE_NAME, Event.errorMismatch d,
         Event.exitProcess 1]
    | some ResumeDecision.FreshStart =>
        (if env.outputFolderExists then [Event.removeTree, Event.makeDirs]
         else [Event.makeDirs]) ++ trainingPipeline env args false
    | some ResumeDecision.Resume =>
        Event.readFile ARGS_STATE_NAME :: trainingPipeline env args true

/-! ## Concrete sample inputs used by witnesses -/

/-- A one-field argument dictionary used as concrete test input. -/
def sampleDict : Args := [(DEVICE_IDS_KEY, Val.vIntList [0])]

/-- An environment whose output folder exists with the training-state marker,
whose persisted args.json holds sampleDict, and whose scheduler-state file is
present. -/
def sampleEnvResume : Env := ⟨true, true, some sampleDict, some ⟨0⟩, 0⟩

/-- An environment with no output folder: a fresh start. -/
def sampleEnvFresh : Env := ⟨false, false, none, none, 0⟩

/-- An environment whose output folder exists without the training-state
marker: an ambiguous folder the orchestrator must refuse to overwrite. -/
def sampleEnvRefuse : Env := ⟨true, false, none, none, 0⟩

/-- An environment ready to resume except that the scheduler-state file is
missing. -/
def sampleEnvNoSched : Env := ⟨true, true, some sampleDict, none, 0⟩

/-- A CPU run request passing all validation checks, with batch size 64, no
loss normalization, clip gradient 1, no momentum, and a mix of set and unset
per-side dimension options. -/
def sampleArgs : TrainArgs :=
  ⟨false, true, false, 1, BLEU, [], false, none, 50000, none, some 20000,
   100, none, some 90, 512, none, some 256, 64, false, 0, 3 / 10000, 1, none,
   "plateau-reduce", 1000, 10, 1 / 2, 3⟩

/-- Same request with residual connections and 3 RNN layers. -/
def sampleArgsResidual : TrainArgs :=
  ⟨false, true, true, 3, BLEU, [], false, none, 50000, none, some 20000,
   100, none, some 90, 512, none, some 256, 64, false, 0, 3 / 10000, 1, none,
   "plateau-reduce", 1000, 10, 1 / 2, 3⟩

/-- Same request with loss normalization enabled, a negative clip gradient
and a momentum value. -/
def sampleArgsNormLoss : TrainArgs :=
  ⟨false, true, false, 1, BLEU, [], false, none, 50000, none, some 20000,
   100, none, some 90, 512, none, some 256, 64, true, 0, 3 / 10000, -1,
   some (9 / 10), "plateau-reduce", 1000, 10, 1 / 2, 3⟩

/-! ## Dictionary lemmas -/

theorem dictGet_isSome_iff_mem_keys (d : Args) (k : String) :
    (dictGet k d).isSome = true ↔ k ∈ dictKeys d := by
  induction d with
  | nil => simp [dictGet, dictKeys]
  | cons a rest ih =>
    obtain ⟨k1, v1⟩ := a
    by_cases h : k1 = k
    · subst h
      simp [dictGet, dictKeys]
    · simp [dictGet, dictKeys, h, Ne.symm h] at ih ⊢
      exact ih

theorem dictGet_eq_some_iff_mem (d : Args) (hd : (dictKeys d).Nodup)
    (k : String) (v : Val) :
    dictGet k d = some v ↔ (k, v) ∈ d := by
  induction d with
  | nil => simp [dictGet]
  | cons a rest ih =>
    obtain ⟨k1, v1⟩ := a
    simp only [dictKeys, List.map_cons, List.nodup_cons] at hd
    by_cases h : k1 = k
    · subst h
      show (if k1 = k1 then some v1 else dictGet k1 rest) = some v ↔ _
      rw [if_pos rfl]
      simp only [List.mem_cons, Option.some.injEq]
      constructor
      · rintro rfl
        exact Or.inl rfl
      · rintro (h1 | h2)
        · exact (Prod.ext_iff.mp h1).2.symm
      -- (k1, v) in rest would put k1 among the tail keys, contradicting nodup
        · exact absurd (List.mem_map_of_mem Prod.fst h2) hd.1
    · show (if k1 = k then some v1 else dictGet k rest) = some v ↔ _
      rw [if_neg h]
      rw [ih hd.2]
      simp only [List.mem_cons]
      constructor
      · exact Or.inr
      · rintro (h1 | h2)
        · exact absurd (congrArg Prod.fst h1).symm h
        · exact h2

theorem mem_dict_difference (d1 d2 : Args) (k : String) :
    k ∈ _dict_difference d1 d2 ↔
      ∃ v, (k, v) ∈ d1 ∧ ¬ (dictGet k d2 = some v) := by
  unfold _dict_difference
  simp only [List.mem_toFinset, List.mem_map, List.mem_filter, decide_not,
    Bool.not_eq_eq_eq_not, Bool.not_true, decide_eq_false_iff_not]
  constructor
  · rintro ⟨⟨k1, v1⟩, ⟨hmem, hne⟩, rfl⟩
    exact ⟨v1, hmem, hne⟩
  · rintro ⟨v, hmem, hne⟩
    exact ⟨(k, v), ⟨hmem, hne⟩, rfl⟩

theorem dict_difference_union_eq_spec (a b : Args)
    (ha : (dictKeys a).Nodup) (hb : (dictKeys b).Nodup) :
    _dict_difference a b ∪ _dict_difference b a = spec_field_difference a b := by
  ext k
  simp only [Finset.mem_union, mem_dict_difference, spec_field_difference,
    Finset.mem_filter, List.mem_toFinset]
  constructor
  · rintro (⟨v, hmem, hne⟩ | ⟨v, hmem, hne⟩)
    · have hga : dictGet k a = some v := (dictGet_eq_some_iff_mem a ha k v).mpr hmem
      refine ⟨Or.inl ?_, ?_⟩
      · exact (dictGet_isSome_iff_mem_keys a k).mp (by simp [hga])
      · rw [hga]; exact fun h => hne h.symm
    · have hgb : dictGet k b = some v := (dictGet_eq_some_iff_mem b hb k v).mpr hmem
      refine ⟨Or.inr ?_, ?_⟩
      · exact (dictGet_isSome_iff_mem_keys b k).mp (by simp [hgb])
      · rw [hgb]; exact fun h => hne h
  · rintro ⟨hmem, hne⟩
    rcases hga : dictGet k a with _ | v
    · rcases hgb : dictGet k b with _ | w
      · exfalso
        rcases hmem with h | h
        · have := (dictGet_isSome_iff_mem_keys a k).mpr h
          rw [hga] at this; exact absurd this (by simp)
        · have := (dictGet_isSome_iff_mem_keys b k).mpr h
          rw [hgb] at this; exact absurd this (by simp)
      · refine Or.inr ⟨w, (dictGet_eq_some_iff_mem b hb k w).mp hgb, ?_⟩
        simp
    · refine Or.inl ⟨v, (dictGet_eq_some_iff_mem a ha k v).mp hga, ?_⟩
      exact fun h => hne (hga.trans h.symm)

/-! ## The resume decision refines the spec-side symmetric difference -/

theorem remaining_arg_diffs_eq_spec (mayDiffer : Finset String) (cur old : Args)
    (hn1 : (dictKeys cur).Nodup) (hn2 : (dictKeys old).Nodup)
    (hdev : DEVICE_IDS_KEY ∈ spec_field_difference cur old \ mayDiffer →
      (pyLen old DEVICE_IDS_KEY).isSome = true ∧
      (pyLen cur DEVICE_IDS_KEY).isSome = true) :
    remaining_arg_diffs mayDiffer cur old =
      some (spec_remaining mayDiffer cur old) := by
  simp only [remaining_arg_diffs, spec_remaining,
    dict_difference_union_eq_spec cur old hn1 hn2]
  by_cases hmem : DEVICE_IDS_KEY ∈ spec_field_difference cur old \ mayDiffer
  · obtain ⟨h1, h2⟩ := hdev hmem
    obtain ⟨m, hm⟩ := Option.isSome_iff_exists.mp h1
    obtain ⟨n, hn⟩ := Option.isSome_iff_exists.mp h2
    rw [if_pos hmem, hm, hn]
    by_cases heq : m = n
    · subst heq
      simp [hmem]
    · simp [hmem, heq]
  · rw [if_neg hmem, if_neg (fun h => hmem h.1)]

theorem resumeDecision_compare_eq (mayDiffer : Finset String) (env : Env)
    (cur old : Args) (hex : env.outputFolderExists = true)
    (hts : env.trainingStateDirExists = true) (hold : env.argsJson = some old)
    (hn1 : (dictKeys cur).Nodup) (hn2 : (dictKeys old).Nodup)
    (hdev : DEVICE_IDS_KEY ∈ spec_field_difference cur old \ mayDiffer →
      (pyLen old DEVICE_IDS_KEY).isSome = true ∧
      (pyLen cur DEVICE_IDS_KEY).isSome = true) :
    resumeDecision mayDiffer env false cur =
      some (if spec_remaining mayDiffer cur old = ∅ then ResumeDecision.Resume
            else ResumeDecision.AbortIncompatible
              (spec_remaining mayDiffer cur old)) := by
  simp only [resumeDecision, hex, hts, hold,
    remaining_arg_diffs_eq_spec mayDiffer cur old hn1 hn2 hdev]
  simp

/-- C1: when the output folder exists, contains the training-state marker and
overwrite is not requested, the decision is Resume exactly when the symmetric
field-name difference between the current and persisted argument
dictionaries, after removing the resumption-neutral fields and applying the
device-id special case, is empty; otherwise it is AbortIncompatible carrying
exactly that remaining set of field names. -/
theorem resume_iff_no_remaining_difference (mayDiffer : Finset String)
    (env : Env) (cur old : Args) (hex : env.outputFolderExists = true)
    (hts : env.trainingStateDirExists = true) (hold : env.argsJson = some old)
    (hn1 : (dictKeys cur).Nodup) (hn2 : (dictKeys old).Nodup)
    (hdev : DEVICE_IDS_KEY ∈ spec_field_difference cur old \ mayDiffer →
      (pyLen old DEVICE_IDS_KEY).isSome = true ∧
      (pyLen cur DEVICE_IDS_KEY).isSome = true) :
    (resumeDecision mayDiffer env false cur = some ResumeDecision.Resume ↔
      spec_remaining mayDiffer cur old = ∅) ∧
    (spec_remaining mayDiffer cur old ≠ ∅ →
      resumeDecision mayDiffer env false cur =
        some (ResumeDecision.AbortIncompatible
          (spec_remaining mayDiffer cur old))) := by
  have hdec := resumeDecision_compare_eq mayDiffer env cur old hex hts hold
    hn1 hn2 hdev
  constructor
  · rw [hdec]
    by_cases h : spec_remaining mayDiffer cur old = ∅
    · simp [h]
    · simp [h]
  · intro h
    rw [hdec, if_neg h]

theorem resume_iff_no_remaining_difference_witness :
    (resumeDecision ∅ sampleEnvResume false sampleDict =
        some ResumeDecision.Resume ↔
      spec_remaining ∅ sampleDict sampleDict = ∅) ∧
    (spec_remaining ∅ sampleDict sampleDict ≠ ∅ →
      resumeDecision ∅ sampleEnvResume false sampleDict =
        some (ResumeDecision.AbortIncompatible
          (spec_remaining ∅ sampleDict sampleDict))) :=
  resume_iff_no_remaining_difference ∅ sampleEnvResume sampleDict sampleDict
    rfl rfl rfl (by decide) (by decide) (by decide)

/-- C5: when the remaining field-name difference after removing the
resumption-neutral fields is exactly the device-id field and both sides hold
device-id lists, equal list lengths yield Resume and differing lengths yield
AbortIncompatible of exactly that field. -/
theorem device_ids_equal_length_resumes (mayDiffer : Finset String) (env : Env)
    (cur old : Args) (l1 l2 : List Int)
    (hex : env.outputFolderExists = true)
    (hts : env.trainingStateDirExists = true) (hold : env.argsJson = some old)
    (hdiff : (_dict_difference cur old ∪ _dict_difference old cur) \ mayDiffer =
      {DEVICE_IDS_KEY})
    (h1 : dictGet DEVICE_IDS_KEY old = some (Val.vIntList l1))
    (h2 : dictGet DEVICE_IDS_KEY cur = some (Val.vIntList l2)) :
    (l1.length = l2.length →
      resumeDecision mayDiffer env false cur = some ResumeDecision.Resume) ∧
    (l1.length ≠ l2.length →
      resumeDecision mayDiffer env false cur =
        some (ResumeDecision.AbortIncompatible {DEVICE_IDS_KEY})) := by
  have hpy1 : pyLen old DEVICE_IDS_KEY = some l1.length := by
    simp [pyLen, h1, valLen]
  have hpy2 : pyLen cur DEVICE_IDS_KEY = some l2.length := by
    simp [pyLen, h2, valLen]
  have hrem : remaining_arg_diffs mayDiffer cur old =
      some (if l1.length = l2.length then (∅ : Finset String)
            else {DEVICE_IDS_KEY}) := by
    simp only [remaining_arg_diffs, hdiff, hpy1, hpy2]
    rw [if_pos (Finset.mem_singleton_self _)]
    by_cases hlen : l1.length = l2.length
    · simp [hlen, Finset.erase_singleton]
    · simp [hlen]
  constructor
  · intro hlen
    simp [resumeDecision, hex, hts, hold, hrem, hlen]
  · intro hlen
    simp [resumeDecision, hex, hts, hold, hrem, hlen,
      Finset.singleton_ne_empty]

theorem device_ids_equal_length_resumes_witness :
    ((0 : Int) :: []).length = [(1 : Int)].length ∧
    resumeDecision ∅
      (Env.mk true true (some [(DEVICE_IDS_KEY, Val.vIntList [0])])
        (some (SchedState.mk 0)) 0) false
      [(DEVICE_IDS_KEY, Val.vIntList [1])] = some ResumeDecision.Resume :=
  And.intro rfl
    ((device_ids_equal_length_resumes ∅
      (Env.mk true true (some [(DEVICE_IDS_KEY, Val.vIntList [0])])
        (some (SchedState.mk 0)) 0)
      [(DEVICE_IDS_KEY, Val.vIntList [1])] [(DEVICE_IDS_KEY, Val.vIntList [0])]
      [0] [1] rfl rfl rfl (by decide) (by decide) (by decide)).1 rfl)

/-! ## Temporal claims over the event trace -/

/-- C3: the model RunConfiguration is only ever constructed when the resume
decision is FreshStart or Resume; on Refuse or AbortIncompatible the process
exits before configuration assembly. -/
theorem run_configuration_only_after_fresh_or_resume (mayDiffer : Finset String)
    (env : Env) (cur : Args) (args : TrainArgs)
    (h : Event.buildRunConfiguration ∈ mainTrace mayDiffer env cur args) :
    resumeDecision mayDiffer env args.overwrite_output cur =
        some ResumeDecision.FreshStart ∨
      resumeDecision mayDiffer env args.overwrite_output cur =
        some ResumeDecision.Resume := by
  unfold mainTrace at h
  by_cases hv : (validateArgs args).isOk = false
  · rw [if_pos hv] at h
    simp at h
  · rw [if_neg hv] at h
    rcases hd : resumeDecision mayDiffer env args.overwrite_output cur with _ | d
    · rw [hd] at h
      simp at h
    · rcases d with _ | _ | _ | ds
      · exact Or.inl rfl
      · exact Or.inr rfl
      · rw [hd] at h
        simp at h
      · rw [hd] at h
        simp at h

theorem run_configuration_only_after_fresh_or_resume_witness :
    resumeDecision ∅ sampleEnvFresh sampleArgs.overwrite_output [] =
        some ResumeDecision.FreshStart ∨
      resumeDecision ∅ sampleEnvFresh sampleArgs.overwrite_output [] =
        some ResumeDecision.Resume :=
  run_configuration_only_after_fresh_or_resume ∅ sampleEnvFresh [] sampleArgs
    (by decide)

/-- C4: when validation passes and the decision is Refuse or
AbortIncompatible, the process exits with status 1, the diverging field names
are enumerated in the error report on AbortIncompatible, and nothing in the
output location is created, written or removed before exiting. -/
theorem refuse_and_abort_exit_nonzero_without_writes (mayDiffer : Finset String)
    (env : Env) (cur : Args) (args : TrainArgs)
    (hv : (validateArgs args).isOk = true)
    (h : resumeDecision mayDiffer env args.overwrite_output cur =
          some ResumeDecision.Refuse ∨
        ∃ d, resumeDecision mayDiffer env args.overwrite_output cur =
          some (ResumeDecision.AbortIncompatible d)) :
    Event.exitProcess 1 ∈ mainTrace mayDiffer env cur args ∧
    (∀ f, Event.writeFile f ∉ mainTrace mayDiffer env cur args) ∧
    Event.makeDirs ∉ mainTrace mayDiffer env cur args ∧
    Event.removeTree ∉ mainTrace mayDiffer env cur args ∧
    (∀ d, resumeDecision mayDiffer env args.overwrite_output cur =
        some (ResumeDecision.AbortIncompatible d) →
      Event.errorMismatch d ∈ mainTrace mayDiffer env cur args) := by
  unfold mainTrace
  rw [if_neg (by simp [hv])]
  rcases h with h | ⟨d, h⟩
  · rw [h]
    refine ⟨by simp, fun f => by simp, by simp, by simp, ?_⟩
    intro d2 hd2
    simp at hd2
  · rw [h]
    refine ⟨by simp, fun f => by simp, by simp, by simp, ?_⟩
    intro d2 hd2
    simp only [Option.some.injEq, ResumeDecision.AbortIncompatible.injEq] at hd2
    subst hd2
    simp

theorem refuse_and_abort_exit_nonzero_without_writes_witness :
    Event.exitProcess 1 ∈ mainTrace ∅ sampleEnvRefuse [] sampleArgs ∧
    (∀ f, Event.writeFile f ∉ mainTrace ∅ sampleEnvRefuse [] sampleArgs) ∧
    Event.makeDirs ∉ mainTrace ∅ sampleEnvRefuse [] sampleArgs ∧
    Event.removeTree ∉ mainTrace ∅ sampleEnvRefuse [] sampleArgs ∧
    (∀ d, resumeDecision ∅ sampleEnvRefuse sampleArgs.overwrite_output [] =
        some (ResumeDecision.AbortIncompatible d) →
      Event.errorMismatch d ∈ mainTrace ∅ sampleEnvRefuse [] sampleArgs) :=
  refuse_and_abort_exit_nonzero_without_writes ∅ sampleEnvRefuse [] sampleArgs
    (by decide) (Or.inl (by decide))

/-! ## The argument snapshot across invocations -/

theorem count_writeArgs_pipeline (env : Env) (args : TrainArgs) (b : Bool) :
    (trainingPipeline env args b).count (Event.writeFile ARGS_STATE_NAME) = 1 := by
  unfold trainingPipeline
  by_cases hg : args.use_cpu = false ∧ env.numGpus = 0
  · rw [if_pos hg]
    rcases b <;> simp [ARGS_STATE_NAME, LOG_NAME, List.count_cons]
  · rw [if_neg hg]
    rcases b
    · rcases args.params with _ | p <;>
        simp [ARGS_STATE_NAME, LOG_NAME, VOCAB_SRC_NAME, VOCAB_TRG_NAME,
          JSON_SUFFIX, List.count_cons, List.count_append]
    · rcases env.schedulerState with _ | s <;>
        simp [ARGS_STATE_NAME, LOG_NAME, VOCAB_SRC_NAME, VOCAB_TRG_NAME,
          SCHEDULER_STATE_NAME, TRAINING_STATE_PARAMS_NAME, List.count_cons,
          List.count_append]

/-- C2 counterexample: a resuming invocation (the persisted snapshot equals
the current argument dictionary, so the decision is Resume) whose trace
nevertheless contains a write of args.json: the snapshot file is rewritten on
resume, not only read. -/
theorem args_snapshot_rewritten_on_resume :
    resumeDecision ∅ sampleEnvResume sampleArgs.overwrite_output sampleDict =
        some ResumeDecision.Resume ∧
    Event.writeFile ARGS_STATE_NAME ∈
      mainTrace ∅ sampleEnvResume sampleDict sampleArgs := by
  decide

/-- C2 amended: the args.json snapshot is written exactly once on every
invocation that proceeds past the resume decision, on fresh start and on
resume alike (train.py lines 133 to 134 run unconditionally); on a resuming
invocation the persisted snapshot is additionally read for comparison before
being overwritten with the current arguments. -/
theorem args_snapshot_written_every_proceeding_run (mayDiffer : Finset String)
    (env : Env) (cur : Args) (args : TrainArgs)
    (hv : (validateArgs args).isOk = true)
    (h : resumeDecision mayDiffer env args.overwrite_output cur =
          some ResumeDecision.FreshStart ∨
        resumeDecision mayDiffer env args.overwrite_output cur =
          some ResumeDecision.Resume) :
    (mainTrace mayDiffer env cur args).count
        (Event.writeFile ARGS_STATE_NAME) = 1 ∧
    (resumeDecision mayDiffer env args.overwrite_output cur =
        some ResumeDecision.Resume →
      Event.readFile ARGS_STATE_NAME ∈ mainTrace mayDiffer env cur args) := by
  unfold mainTrace
  rw [if_neg (by simp [hv])]
  rcases h with h | h <;> rw [h]
  · constructor
    · rcases hex : env.outputFolderExists <;>
        simp [hex, List.count_append, List.count_cons,
          count_writeArgs_pipeline env args false]
    · intro hr
      simp at hr
  · constructor
    · simp [List.count_cons, count_writeArgs_pipeline env args true]
    · intro _
      simp

theorem args_snapshot_written_every_proceeding_run_witness :
    (mainTrace ∅ sampleEnvResume sampleDict sampleArgs).count
        (Event.writeFile ARGS_STATE_NAME) = 1 ∧
    (resumeDecision ∅ sampleEnvResume sampleArgs.overwrite_output sampleDict =
        some ResumeDecision.Resume →
      Event.readFile ARGS_STATE_NAME ∈
        mainTrace ∅ sampleEnvResume sampleDict sampleArgs) :=
  args_snapshot_written_every_proceeding_run ∅ sampleEnvResume sampleDict
    sampleArgs (by decide) (Or.inr (by decide))

/-! ## Scheduler state on fresh start and resume -/

/-- C6: on fresh start the learning-rate scheduler is built from
configuration (with the half-life passed through none_if_negative); on resume
it is restored from the scheduler-state file; and when that file is missing
or unreadable on a resuming invocation, the run fails before the training
loop: the trace contains a crash and no fit call, and no scheduler value
exists (no fallback to a fresh one). -/
theorem scheduler_restored_or_fatal_on_resume (mayDiffer : Finset String)
    (env : Env) (cur : Args) (args : TrainArgs) :
    scheduler_instance env args false =
      some (LrScheduler.fromConfig args.learning_rate_scheduler_type
        args.checkpoint_frequency
        (none_if_negative args.learning_rate_half_life)
        args.learning_rate_reduce_factor
        args.learning_rate_reduce_num_not_improved) ∧
    (∀ s, env.schedulerState = some s →
      scheduler_instance env args true = some (LrScheduler.restored s)) ∧
    (env.schedulerState = none → scheduler_instance env args true = none) ∧
    (env.schedulerState = none →
      resumeDecision mayDiffer env args.overwrite_output cur =
          some ResumeDecision.Resume →
      Event.fitCall ∉ mainTrace mayDiffer env cur args ∧
      Event.crash ∈ mainTrace mayDiffer env cur args) := by
  refine ⟨rfl, ?_, ?_, ?_⟩
  · intro s hs
    simp [scheduler_instance, hs]
  · intro hnone
    simp [scheduler_instance, hnone]
  · intro hnone hres
    unfold mainTrace
    by_cases hv : (validateArgs args).isOk = false
    · rw [if_pos hv]
      simp
    · rw [if_neg hv, hres]
      simp only [trainingPipeline, hnone]
      split_ifs <;> simp

theorem scheduler_restored_or_fatal_on_resume_witness :
    scheduler_instance sampleEnvResume sampleArgs true =
      some (LrScheduler.restored (SchedState.mk 0)) ∧
    Event.fitCall ∉ mainTrace ∅ sampleEnvNoSched sampleDict sampleArgs ∧
    Event.crash ∈ mainTrace ∅ sampleEnvNoSched sampleDict sampleArgs :=
  And.intro
    ((scheduler_restored_or_fatal_on_resume ∅ sampleEnvResume sampleDict
      sampleArgs).2.1 (SchedState.mk 0) rfl)
    ((scheduler_restored_or_fatal_on_resume ∅ sampleEnvNoSched sampleDict
      sampleArgs).2.2.2 rfl (by decide))

/-! ## Optimizer parameters and validation -/

/-- C7: in the assembled optimizer parameters, rescale_grad is 1.0 when loss
normalization is enabled, regardless of batch size, and 1 divided by the
batch size otherwise. -/
theorem rescale_grad_value (args : TrainArgs) (s : Option LrScheduler) :
    (args.normalize_loss = true →
      dictGet RESCALE_GRAD_KEY (optimizer_params args s) =
        some (OptVal.num 1)) ∧
    (args.normalize_loss = false →
      dictGet RESCALE_GRAD_KEY (optimizer_params args s) =
        some (OptVal.num (1 / (args.batch_size : Rat)))) := by
  have hkey : dictGet RESCALE_GRAD_KEY (optimizer_params args s) =
      some (OptVal.num
        (if args.normalize_loss then 1 else 1 / (args.batch_size : Rat))) := by
    rcases s with _ | sch <;>
      rcases hc : none_if_negative args.clip_gradient with _ | c <;>
        rcases hm : args.momentum with _ | m <;>
          simp [optimizer_params, hc, hm, dictGet, WD_KEY, LEARNING_RATE_KEY,
            LR_SCHEDULER_KEY, CLIP_GRADIENT_KEY, MOMENTUM_KEY, RESCALE_GRAD_KEY]
  constructor
  · intro hn
    rw [hkey, hn]
    simp
  · intro hn
    rw [hkey, hn]
    simp

theorem rescale_grad_value_witness :
    (dictGet RESCALE_GRAD_KEY (optimizer_params sampleArgs none) =
      some (OptVal.num (1 / (sampleArgs.batch_size : Rat)))) ∧
    (dictGet RESCALE_GRAD_KEY (optimizer_params sampleArgsNormLoss none) =
      some (OptVal.num 1)) ∧
    (1 / (sampleArgs.batch_size : Rat) = 1 / 64) :=
  And.intro ((rescale_grad_value sampleArgs none).2 rfl)
    (And.intro ((rescale_grad_value sampleArgsNormLoss none).1 rfl)
      (by norm_num [sampleArgs]))

/-- C10: clip_gradient is present in the optimizer parameters exactly when
the requested value is non-negative (a negative value silently drops the
key), and momentum exactly when one was requested; when present each carries
the requested value. -/
theorem clip_gradient_momentum_presence (args : TrainArgs)
    (s : Option LrScheduler) :
    dictGet CLIP_GRADIENT_KEY (optimizer_params args s) =
      (if args.clip_gradient < 0 then none
       else some (OptVal.num args.clip_gradient)) ∧
    dictGet MOMENTUM_KEY (optimizer_params args s) =
      Option.map OptVal.num args.momentum := by
  rcases s with _ | sch <;>
    by_cases hc : args.clip_gradient < 0 <;>
      rcases hm : args.momentum with _ | m <;>
        simp [optimizer_params, none_if_negative, hc, hm, dictGet, WD_KEY,
          LEARNING_RATE_KEY, LR_SCHEDULER_KEY, CLIP_GRADIENT_KEY,
          MOMENTUM_KEY, RESCALE_GRAD_KEY]

/-- C8: with residual connections requested and the other two validation
checks satisfied, validation fails with the residual-connections error
exactly when the number of RNN layers is at most 2, and succeeds exactly
when it exceeds 2. -/
theorem residual_connections_require_depth (args : TrainArgs)
    (hres : args.rnn_residual_connections = true)
    (hfused : args.use_fused_rnn = true → args.use_cpu = false)
    (hmetric : args.optimized_metric = BLEU ∨
      args.optimized_metric ∈ args.metrics) :
    (validateArgs args = Except.error MSG_RESIDUAL ↔
      args.rnn_num_layers ≤ 2) ∧
    ((validateArgs args).isOk = true ↔ 2 < args.rnn_num_layers) := by
  have h1 : (if args.use_fused_rnn then
      check_condition (!args.use_cpu) MSG_FUSED else Except.ok ()) =
      Except.ok () := by
    by_cases hf : args.use_fused_rnn = true
    · rw [if_pos hf]
      simp [check_condition, hfused hf]
    · simp [hf]
  have hm : decide (args.optimized_metric = BLEU ∨
      args.optimized_metric ∈ args.metrics) = true := decide_eq_true hmetric
  by_cases hl : 2 < args.rnn_num_layers
  · have hok : validateArgs args = Except.ok () := by
      unfold validateArgs
      rw [h1]
      simp [hres, hl, hm, Except.bind, check_condition]
    rw [hok]
    refine ⟨⟨fun h => by simp at h, fun hle => absurd hl (by omega)⟩,
      ⟨fun _ => hl, fun _ => rfl⟩⟩
  · have herr : validateArgs args = Except.error MSG_RESIDUAL := by
      unfold validateArgs
      rw [h1]
      simp [hres, hl, Except.bind, check_condition]
    rw [herr]
    refine ⟨⟨fun _ => by omega, fun _ => rfl⟩,
      ⟨fun h => by simp [Except.isOk, Except.toBool] at h,
       fun hgt => absurd hgt hl⟩⟩

theorem residual_connections_require_depth_witness :
    (validateArgs sampleArgsResidual = Except.error MSG_RESIDUAL ↔
      sampleArgsResidual.rnn_num_layers ≤ 2) ∧
    ((validateArgs sampleArgsResidual).isOk = true ↔
      2 < sampleArgsResidual.rnn_num_layers) :=
  residual_connections_require_depth sampleArgsResidual rfl (by decide)
    (Or.inl rfl)

/-- C9: each per-side sub-dimension option falls back to the corresponding
combined option when unset and is used verbatim when set: the source and
target variants of num_words, max_seq_len and num_embed. -/
theorem sub_dimension_defaulting (args : TrainArgs) :
    (args.num_words_source = none →
      num_words_source_resolved args = args.num_words) ∧
    (∀ v, args.num_words_source = some v →
      num_words_source_resolved args = v) ∧
    (args.num_words_target = none →
      num_words_target_resolved args = args.num_words) ∧
    (∀ v, args.num_words_target = some v →
      num_words_target_resolved args = v) ∧
    (args.max_seq_len_source = none →
      max_seq_len_source_resolved args = args.max_seq_len) ∧
    (∀ v, args.max_seq_len_source = some v →
      max_seq_len_source_resolved args = v) ∧
    (args.max_seq_len_target = none →
      max_seq_len_target_resolved args = args.max_seq_len) ∧
    (∀ v, args.max_seq_len_target = some v →
      max_seq_len_target_resolved args = v) ∧
    (args.num_embed_source = none →
      num_embed_source_resolved args = args.num_embed) ∧
    (∀ v, args.num_embed_source = some v →
      num_embed_source_resolved args = v) ∧
    (args.num_embed_target = none →
      num_embed_target_resolved args = args.num_embed) ∧
    (∀ v, args.num_embed_target = some v →
      num_embed_target_resolved args = v) := by
  refine ⟨?_, ?_, ?_, ?_, ?_, ?_, ?_, ?_, ?_, ?_, ?_, ?_⟩ <;> intros <;>
    simp_all [num_words_source_resolved, num_words_target_resolved,
      max_seq_len_source_resolved, max_seq_len_target_resolved,
      num_embed_source_resolved, num_embed_target_resolved]

theorem sub_dimension_defaulting_witness :
    num_words_source_resolved sampleArgs = sampleArgs.num_words ∧
    num_words_target_resolved sampleArgs = 20000 ∧
    max_seq_len_source_resolved sampleArgs = sampleArgs.max_seq_len ∧
    max_seq_len_target_resolved sampleArgs = 90 ∧
    num_embed_source_resolved sampleArgs = sampleArgs.num_embed ∧
    num_embed_target_resolved sampleArgs = 256 :=
  And.intro ((sub_dimension_defaulting sampleArgs).1 rfl)
    (And.intro ((sub_dimension_defaulting sampleArgs).2.2.2.1 20000 rfl)
      (And.intro ((sub_dimension_defaulting sampleArgs).2.2.2.2.1 rfl)
        (And.intro
          ((sub_dimension_defaulting sampleArgs).2.2.2.2.2.2.2.1 90 rfl)
          (And.intro
            ((sub_dimension_defaulting sampleArgs).2.2.2.2.2.2.2.2.1 rfl)
            ((sub_dimension_defaulting
              sampleArgs).2.2.2.2.2.2.2.2.2.2.2 256 rfl)))))
